import Mathlib

/-!
Verification of the `data-vault` benchmark framework
(`crates/vault-benchmarks`, `crates/vault-cli`, `crates/vault-integration`).

Rust source is shallowly embedded:
* `serde_json::Value` becomes the inductive `Json`;
* `f64` timing samples become exact rationals `ℚ` (the claims under review
  concern index arithmetic and ordering, where the exact-rational model and
  the float model agree);
* `usize` becomes `Nat`, with the one place where Rust release-mode
  wrap-around matters modelled explicitly (`usizeWrapSub`);
* `DateTime<Utc>` timestamps become `Nat` (a totally ordered instant);
* fallible operations become `Option` / `Except`.
-/

namespace DataVault

/-- Model of `serde_json::Value` (numbers as exact rationals). -/
inductive Json where
  | null : Json
  | bool : Bool → Json
  | num : ℚ → Json
  | str : String → Json
  | arr : List Json → Json
  | obj : List (String × Json) → Json

/-- Decimal digit to character (codepoint 48 + d), as used when rendering a
timestamp. -/
def digitChar (d : Nat) : Char := Char.ofNat (48 + d)

/-- Character back to decimal digit; `none` on anything outside `0`–`9`. -/
def charDigit? (c : Char) : Option Nat :=
  if 48 ≤ c.toNat ∧ c.toNat ≤ 57 then some (c.toNat - 48) else none

/-- Modelled from the spec: `chrono` (not part of this repository) serializes a
`DateTime<Utc>` as an ISO‑8601 UTC string, an injective textual encoding of the
instant with a total parse inverse. We model the instant as a `Nat` and the
encoding as its decimal numeral (most significant digit first). -/
def tsRender (t : Nat) : String :=
  String.mk (((Nat.digits 10 t).map digitChar).reverse)

/-- Modelled from the spec: parse of the timestamp string written by
`tsRender`; rejects any non-digit character. -/
def parseDigits : List Char → Option (List Nat)
  | [] => some []
  | c :: cs =>
    match charDigit? c, parseDigits cs with
    | some d, some ds => some (d :: ds)
    | _, _ => none

/-- Modelled from the spec: timestamp parsing (inverse of `tsRender`). -/
def tsParse (s : String) : Option Nat :=
  match parseDigits s.data.reverse with
  | some ds => some (Nat.ofDigits 10 ds)
  | none => none

/-- `BenchmarkResult` from `crates/vault-benchmarks/src/result.rs`:
`target_id : String`, `metrics : serde_json::Value`, `timestamp : DateTime<Utc>`. -/
structure BenchmarkResult where
  target_id : String
  metrics : Json
  timestamp : Nat

/-- Field lookup in a JSON object (first binding wins), as the derived
deserializer resolves named fields. -/
def lookupField : List (String × Json) → String → Option Json
  | [], _ => none
  | (k, v) :: rest, key => if k = key then some v else lookupField rest key

/-- `BenchmarkResult::to_json` (serde's derived `Serialize`): the record
becomes a JSON object with exactly the fields `target_id`, `metrics`,
`timestamp` (timestamp rendered as its ISO‑8601 text, modelled by `tsRender`).
Pretty-printing whitespace is quotiented away: the self-describing text format
is modelled by the JSON tree itself. -/
def BenchmarkResult.to_json (r : BenchmarkResult) : Json :=
  Json.obj
    [ ("target_id", Json.str r.target_id)
    , ("metrics", r.metrics)
    , ("timestamp", Json.str (tsRender r.timestamp)) ]

/-- `BenchmarkResult::from_json` (serde's derived `Deserialize`): accepts any
JSON object carrying the three named fields (in any order), parsing the
timestamp text back to an instant. -/
def BenchmarkResult.from_json (j : Json) : Option BenchmarkResult :=
  match j with
  | Json.obj fields =>
    match lookupField fields "target_id", lookupField fields "metrics",
          lookupField fields "timestamp" with
    | some (Json.str tid), some m, some (Json.str ts) =>
      match tsParse ts with
      | some t => some ⟨tid, m, t⟩
      | none => none
    | _, _, _ => none
  | _ => none

/-! ### Statistics computation (shared block of every adapter's `run`,
e.g. `adapters/hashing.rs` lines 126–153). -/

/-- `let p50_idx = self.iterations / 2;` — integer division, no clamp. -/
def p50Idx (iterations : Nat) : Nat := iterations / 2

/-- `let p95_idx = (self.iterations as f64 * 0.95) as usize;` — the float
product truncated toward zero, i.e. `⌊iterations · 95/100⌋`, modelled by exact
natural arithmetic (for every realizable iteration count the `f64` product
rounds to the same floor). -/
def p95IdxRaw (iterations : Nat) : Nat := iterations * 95 / 100

/-- `let p99_idx = (self.iterations as f64 * 0.99) as usize;`. -/
def p99IdxRaw (iterations : Nat) : Nat := iterations * 99 / 100

/-- `p95_idx.min(self.iterations - 1)` — the clamp applied at the indexing
site `times[p95_idx.min(self.iterations - 1)]`. -/
def p95Idx (iterations : Nat) : Nat := min (p95IdxRaw iterations) (iterations - 1)

/-- `p99_idx.min(self.iterations - 1)`. -/
def p99Idx (iterations : Nat) : Nat := min (p99IdxRaw iterations) (iterations - 1)

/-- The three percentile latencies passed to `with_latencies`. -/
structure PercentileValues where
  p50 : ℚ
  p95 : ℚ
  p99 : ℚ

/-- `times.sort_by(partial_cmp)` followed by the three indexed reads; timing
samples (`f64` milliseconds) are modelled as exact rationals. Out-of-range
reads (impossible for `iterations ≥ 1`, proved below) default to `0`. -/
def computePercentiles (iterations : Nat) (times : List ℚ) : PercentileValues :=
  let sorted := List.insertionSort (fun a b : ℚ => a ≤ b) times
  ⟨sorted.getD (p50Idx iterations) 0,
   sorted.getD (p95Idx iterations) 0,
   sorted.getD (p99Idx iterations) 0⟩

/-- Rust release-mode wrap-around subtraction on `usize` (64-bit), used to
state what `self.iterations - 1` denotes when `iterations == 0`. -/
def usizeWrapSub (a b : Nat) : Nat := (a + (2 ^ 64 - b % 2 ^ 64)) % 2 ^ 64

/-! ### Target catalog (`adapters/mod.rs` and the four adapter modules). -/

/-- Operation variant of a catalog entry (the adapter type plus its
constructor-selected mode). -/
inductive TargetKind where
  | encryption
  | hashingBlake3
  | hashingSha256
  | hashingChecksum
  | anonFull
  | anonDetection
  | anonJson
  | storageWrite
  | storageRead
  | storageContentAddressing
deriving DecidableEq

/-- A constructed benchmark target: id, operation variant, size parameter
(`data_size` bytes or `record_count`), and trial count (`iterations`), all
fixed at construction time. -/
structure CatalogTarget where
  id : String
  kind : TargetKind
  sizeParam : Nat
  iterations : Nat
deriving DecidableEq

/-- `EncryptionBenchmark::new` (`adapters/encryption.rs`): `iterations: 100`. -/
def EncryptionBenchmark.new (data_size : Nat) (id : String) : CatalogTarget :=
  ⟨id, TargetKind.encryption, data_size, 100⟩

/-- `HashingBenchmark::blake3` (`adapters/hashing.rs`): `iterations: 1000`. -/
def HashingBenchmark.blake3 (data_size : Nat) (id : String) : CatalogTarget :=
  ⟨id, TargetKind.hashingBlake3, data_size, 1000⟩

/-- `HashingBenchmark::sha256`: `iterations: 1000`. -/
def HashingBenchmark.sha256 (data_size : Nat) (id : String) : CatalogTarget :=
  ⟨id, TargetKind.hashingSha256, data_size, 1000⟩

/-- `HashingBenchmark::checksum`: `iterations: 1000`. -/
def HashingBenchmark.checksum (data_size : Nat) (id : String) : CatalogTarget :=
  ⟨id, TargetKind.hashingChecksum, data_size, 1000⟩

/-- `AnonymizationBenchmark::new` (`adapters/anonymization.rs`):
`iterations: 10`. -/
def AnonymizationBenchmark.new (record_count : Nat) (id : String) : CatalogTarget :=
  ⟨id, TargetKind.anonFull, record_count, 10⟩

/-- `AnonymizationBenchmark::pii_detection`: `iterations: 10`. -/
def AnonymizationBenchmark.pii_detection (record_count : Nat) (id : String) : CatalogTarget :=
  ⟨id, TargetKind.anonDetection, record_count, 10⟩

/-- `StorageBenchmark::write` (`adapters/storage.rs`): `iterations: 100`. -/
def StorageBenchmark.write (data_size : Nat) (id : String) : CatalogTarget :=
  ⟨id, TargetKind.storageWrite, data_size, 100⟩

/-- `StorageBenchmark::read`: `iterations: 100`. -/
def StorageBenchmark.read (data_size : Nat) (id : String) : CatalogTarget :=
  ⟨id, TargetKind.storageRead, data_size, 100⟩

/-- `StorageBenchmark::content_addressing`: `iterations: 100`. -/
def StorageBenchmark.content_addressing (data_size : Nat) (id : String) : CatalogTarget :=
  ⟨id, TargetKind.storageContentAddressing, data_size, 100⟩

/-- `all_targets` (`adapters/mod.rs` lines 58–80): the full ordered catalog. -/
def all_targets : List CatalogTarget :=
  [ EncryptionBenchmark.new 1024 "encryption-1kb"
  , EncryptionBenchmark.new (1024 * 1024) "encryption-1mb"
  , EncryptionBenchmark.new (10 * 1024 * 1024) "encryption-10mb"
  , HashingBenchmark.blake3 (1024 * 1024) "hashing-blake3-1mb"
  , HashingBenchmark.sha256 (1024 * 1024) "hashing-sha256-1mb"
  , HashingBenchmark.checksum (1024 * 1024) "checksum-verification-1mb"
  , AnonymizationBenchmark.new 100 "anonymization-100-records"
  , AnonymizationBenchmark.new 1000 "anonymization-1000-records"
  , AnonymizationBenchmark.pii_detection 1000 "pii-detection-1000-records"
  , StorageBenchmark.write (1024 * 1024) "storage-write-1mb"
  , StorageBenchmark.read (1024 * 1024) "storage-read-1mb"
  , StorageBenchmark.content_addressing (1024 * 1024) "content-addressing-1mb" ]

/-- Rust `str::starts_with`: the candidate's character sequence is a prefix
of the string's. -/
def strStartsWith (s p : String) : Bool := p.data.isPrefixOf s.data

/-- `targets_by_prefix` (`adapters/mod.rs` lines 83–88):
`all_targets().into_iter().filter(|t| t.id().starts_with(prefix)).collect()`. -/
def targets_by_prefix (p : String) : List CatalogTarget :=
  all_targets.filter (fun t => strStartsWith t.id p)

/-- `target_by_id` (`adapters/mod.rs` lines 91–93):
`all_targets().into_iter().find(|t| t.id() == id)`. -/
def target_by_id (id : String) : Option CatalogTarget :=
  all_targets.find? (fun t => t.id == id)

/-! ### Orchestrator (`lib.rs` lines 65–127) and CLI run path
(`vault-cli/src/commands/benchmark.rs`).

A target's runtime outcome under the `BenchTarget` trait contract is
abstracted as a `TargetBehavior`: its id, whether `setup()` returns `Ok`,
the `BenchmarkResult` its `run()` produces, and whether `teardown()`
returns `Ok`. -/

/-- Runtime outcome of one target under the `BenchTarget` contract. -/
structure TargetBehavior where
  id : String
  setupOk : Bool
  record : BenchmarkResult
  teardownOk : Bool

/-- The per-target loop body shared verbatim by `run_all_benchmarks` and
`run_benchmarks_by_prefix` (`lib.rs` 69–84 and 94–106): a failed setup is
logged and the target skipped (`continue`); otherwise `run()`'s record is
pushed; a failed teardown is only logged — the pushed record is untouched
(the result never consults `teardownOk`). -/
def runBatch : List TargetBehavior → List BenchmarkResult
  | [] => []
  | t :: rest =>
    if t.setupOk then t.record :: runBatch rest
    else runBatch rest

/-- `run_all_benchmarks` (`lib.rs` 65–87), parametrized by the catalog's
runtime behaviours. -/
def run_all_benchmarks (targets : List TargetBehavior) : List BenchmarkResult :=
  runBatch targets

/-- `run_benchmarks_by_prefix` (`lib.rs` 90–109): the same loop over the
prefix-filtered catalog. -/
def run_benchmarks_by_prefix (targets : List TargetBehavior) (p : String) :
    List BenchmarkResult :=
  runBatch (targets.filter (fun t => strStartsWith t.id p))

/-- `run_benchmark_by_id` (`lib.rs` 112–127): `target_by_id(id)?` gives
`None` for an unknown id; a failed setup also returns `None`; a failed
teardown is logged and `Some(result)` still returned. -/
def run_benchmark_by_id (targets : List TargetBehavior) (id : String) :
    Option BenchmarkResult :=
  match targets.find? (fun t => t.id == id) with
  | none => none
  | some t => if t.setupOk then some t.record else none

/-- Outcome of the CLI `run` subcommand: success with records, or a
`CliError::validation` carrying its message. -/
inductive CliRunOutcome where
  | ok : List BenchmarkResult → CliRunOutcome
  | validationError : String → CliRunOutcome

/-- Whether the outcome is a user-facing validation error. -/
def CliRunOutcome.isValidationError : CliRunOutcome → Bool
  | CliRunOutcome.validationError _ => true
  | _ => false

/-- `RunBenchmarkCommand::run`, `--prefix` branch (`benchmark.rs` 107–116):
run by prefix, then `if results.is_empty()` report the validation error
(message `No benchmarks found with prefix '…'`, quotes elided). -/
def runPrefixCommand (targets : List TargetBehavior) (p : String) : CliRunOutcome :=
  let results := run_benchmarks_by_prefix targets p
  if results.isEmpty then
    CliRunOutcome.validationError ("No benchmarks found with prefix " ++ p)
  else CliRunOutcome.ok results

/-- `RunBenchmarkCommand::run`, `--target` branch (`benchmark.rs` 96–106):
a `None` from `run_benchmark_by_id` becomes the validation error
(message `Benchmark target '…' not found`, quotes elided). -/
def runTargetCommand (targets : List TargetBehavior) (id : String) : CliRunOutcome :=
  match run_benchmark_by_id targets id with
  | some r => CliRunOutcome.ok [r]
  | none => CliRunOutcome.validationError ("Benchmark target " ++ id ++ " not found")

/-! ### Persistence: `BenchmarkIO::read_results` (`io.rs` lines 72–95). -/

/-- One directory entry of the raw results directory: whether its path has
the `json` extension, and its parsed content (`none` models text that is not
valid JSON; file-system read errors are outside this claim's scope — they
propagate with `?` in the source). -/
structure RawFile where
  isJsonExt : Bool
  content : Option Json

/-- `BenchmarkResult::from_json(&content)` on one file's text. -/
def parseFile (f : RawFile) : Option BenchmarkResult :=
  match f.content with
  | some j => BenchmarkResult.from_json j
  | none => none

/-- The read loop: files without the `json` extension are ignored, files
whose content fails to parse are silently skipped (`if let Ok(result)`),
parsed records accumulate in directory order. -/
def collectResults : List RawFile → List BenchmarkResult
  | [] => []
  | f :: rest =>
    if f.isJsonExt then
      match parseFile f with
      | some r => r :: collectResults rest
      | none => collectResults rest
    else collectResults rest

/-- `results.sort_by(|a, b| a.timestamp.cmp(&b.timestamp))`'s key order. -/
def byTimestamp (a b : BenchmarkResult) : Prop := a.timestamp ≤ b.timestamp

instance : DecidableRel byTimestamp := fun a b => Nat.decLe a.timestamp b.timestamp

instance : IsTotal BenchmarkResult byTimestamp :=
  ⟨fun a b => Nat.le_total a.timestamp b.timestamp⟩

instance : IsTrans BenchmarkResult byTimestamp :=
  ⟨fun _ _ _ hab hbc => Nat.le_trans hab hbc⟩

/-- `read_results`: collect the parseable records, then sort ascending by
timestamp (a stable comparison sort, modelled by insertion sort). -/
def read_results (dir : List RawFile) : List BenchmarkResult :=
  List.insertionSort byTimestamp (collectResults dir)

/-! ### Integration adapter (`vault-integration/src/adapters/infra.rs`).

The `RwLock`-held policy values become plain fields of an explicit state
(the claims under review are sequential); `IntegrationResult<()>` becomes
`Except String` over state transformers. The logging/tracing/error configs
are never touched by `initialize`/`refresh_all` and are omitted from the
state. -/

/-- `RetryPolicy` and its `Default` (lines 94–122). -/
structure RetryPolicy where
  max_retries : Nat
  initial_backoff_ms : Nat
  max_backoff_ms : Nat
  multiplier : ℚ
  jitter : Bool
  retryable_status_codes : List Nat
deriving DecidableEq

/-- `RetryPolicy::default()`. -/
def RetryPolicy.default : RetryPolicy :=
  ⟨3, 100, 30000, 2, true, [408, 429, 500, 502, 503, 504]⟩

/-- `RateLimitPolicy` and its `Default` (lines 146–171). -/
structure RateLimitPolicy where
  requests_per_second : Nat
  burst_size : Nat
  per_user : Bool
  per_ip : Bool
  global : Bool
deriving DecidableEq

/-- `RateLimitPolicy::default()`. -/
def RateLimitPolicy.default : RateLimitPolicy := ⟨100, 200, true, true, true⟩

/-- `CacheBackend` (lines 203–214). -/
inductive CacheBackend where
  | memory
  | redis
  | memcached
deriving DecidableEq

/-- `CachePolicy` and its `Default` (lines 173–201). -/
structure CachePolicy where
  max_entries : Nat
  max_size_bytes : Nat
  default_ttl_secs : Nat
  negative_cache : Bool
  negative_ttl_secs : Nat
  backend : CacheBackend
deriving DecidableEq

/-- `CachePolicy::default()`. -/
def CachePolicy.default : CachePolicy :=
  ⟨10000, 256 * 1024 * 1024, 3600, true, 60, CacheBackend.memory⟩

/-- `InfraConfig` (lines 50–92); `adapterEnabled` is `config.adapter.enabled`. -/
structure InfraConfig where
  adapterEnabled : Bool
  enable_config : Bool
  enable_logging : Bool
  enable_tracing : Bool
  enable_caching : Bool
  enable_retry : Bool
  enable_rate_limiting : Bool
deriving DecidableEq

/-- `InfraCapabilities` (lines 312–327). -/
structure InfraCapabilities where
  config_available : Bool
  logging_available : Bool
  tracing_available : Bool
  caching_available : Bool
  retry_available : Bool
  rate_limiting_available : Bool
deriving DecidableEq

/-- The adapter's mutable state (`InfraAdapter` fields, lines 329–349). -/
structure InfraAdapterState where
  config : InfraConfig
  retry_policy : RetryPolicy
  rate_limit_policy : RateLimitPolicy
  cache_policy : CachePolicy
  capabilities : InfraCapabilities
  initialized : Bool

/-- `InfraConfig::default()`: adapter enabled, all six integrations on. -/
def InfraConfig.default : InfraConfig := ⟨true, true, true, true, true, true, true⟩

/-- `InfraAdapter::with_defaults()` → `InfraAdapter::new(InfraConfig::default())`
(lines 351–370): default policies, all capabilities initially false,
not yet initialized. -/
def InfraAdapter.with_defaults : InfraAdapterState :=
  ⟨InfraConfig.default, RetryPolicy.default, RateLimitPolicy.default,
   CachePolicy.default, ⟨false, false, false, false, false, false⟩, false⟩

/-- `update_capabilities` (lines 466–474): copies the six enable flags. -/
def update_capabilities (s : InfraAdapterState) : InfraAdapterState :=
  ⟨s.config, s.retry_policy, s.rate_limit_policy, s.cache_policy,
   ⟨s.config.enable_config, s.config.enable_logging, s.config.enable_tracing,
    s.config.enable_caching, s.config.enable_retry, s.config.enable_rate_limiting⟩,
   s.initialized⟩

/-- `refresh_retry_policy` (lines 408–422): no-op unless `enable_retry`;
replaces the whole policy with the default; always `Ok`. -/
def refresh_retry_policy (s : InfraAdapterState) : Except String InfraAdapterState :=
  if s.config.enable_retry = false then Except.ok s
  else Except.ok ⟨s.config, RetryPolicy.default, s.rate_limit_policy,
    s.cache_policy, s.capabilities, s.initialized⟩

/-- `refresh_rate_limit_policy` (lines 425–437). -/
def refresh_rate_limit_policy (s : InfraAdapterState) : Except String InfraAdapterState :=
  if s.config.enable_rate_limiting = false then Except.ok s
  else Except.ok ⟨s.config, s.retry_policy, RateLimitPolicy.default,
    s.cache_policy, s.capabilities, s.initialized⟩

/-- `refresh_cache_policy` (lines 440–452). -/
def refresh_cache_policy (s : InfraAdapterState) : Except String InfraAdapterState :=
  if s.config.enable_caching = false then Except.ok s
  else Except.ok ⟨s.config, s.retry_policy, s.rate_limit_policy,
    CachePolicy.default, s.capabilities, s.initialized⟩

/-- `refresh_all` (lines 455–463): the three refreshes in sequence, each
propagating errors with `?`. -/
def refresh_all (s : InfraAdapterState) : Except String InfraAdapterState :=
  match refresh_retry_policy s with
  | Except.error e => Except.error e
  | Except.ok s1 =>
    match refresh_rate_limit_policy s1 with
    | Except.error e => Except.error e
    | Except.ok s2 => refresh_cache_policy s2

/-- Sets the `initialized` flag. -/
def setInitialized (s : InfraAdapterState) (b : Bool) : InfraAdapterState :=
  ⟨s.config, s.retry_policy, s.rate_limit_policy, s.cache_policy,
   s.capabilities, b⟩

/-- `InfraAdapter::initialize` (lines 515–541): if already initialized, log
and return `Ok(())` unchanged (the idempotency guard); otherwise update
capabilities, refresh all configurations (propagating any error), then set
the initialized flag. -/
def InfraAdapter.init (s : InfraAdapterState) : Except String InfraAdapterState :=
  if s.initialized then Except.ok s
  else
    match refresh_all (update_capabilities s) with
    | Except.error e => Except.error e
    | Except.ok s1 => Except.ok (setInitialized s1 true)

/-- A concrete well-formed raw result file (used to exercise
`read_results` on explicit directories): timestamp text given directly. -/
def sampleFile (ts : String) (id : String) : RawFile :=
  ⟨true, some (Json.obj
    [ ("target_id", Json.str id)
    , ("metrics", Json.null)
    , ("timestamp", Json.str ts) ])⟩

/-- A `.json` file whose content is not a benchmark record. -/
def corruptFile : RawFile := ⟨true, some (Json.str "garbage")⟩

/-- A directory entry without the `json` extension. -/
def strayFile : RawFile := ⟨false, none⟩

theorem charDigit_digitChar : ∀ d : Nat, d < 10 → charDigit? (digitChar d) = some d := by
  decide

theorem parseDigits_map_digitChar (l : List Nat) (h : ∀ d ∈ l, d < 10) :
    parseDigits (l.map digitChar) = some l := by
  induction l with
  | nil => rfl
  | cons d ds ih =>
    have hd : d < 10 := h d (List.mem_cons_self d ds)
    have hds : ∀ x ∈ ds, x < 10 := fun x hx => h x (List.mem_cons_of_mem d hx)
    simp [parseDigits, charDigit_digitChar d hd, ih hds]

theorem tsParse_tsRender (t : Nat) : tsParse (tsRender t) = some t := by
  have hdig : ∀ d ∈ Nat.digits 10 t, d < 10 := fun d hd =>
    Nat.digits_lt_base (by norm_num) hd
  have hdata : (tsRender t).data = ((Nat.digits 10 t).map digitChar).reverse := rfl
  simp [tsParse, hdata, List.reverse_reverse,
    parseDigits_map_digitChar _ hdig, Nat.ofDigits_digits]

/-- C3: serializing a `BenchmarkResult` to the self-describing format and
deserializing the output recovers the record exactly: identical target id,
identical timestamp, structurally equal metrics. -/
theorem C3_roundtrip (r : BenchmarkResult) :
    BenchmarkResult.from_json (BenchmarkResult.to_json r) = some r ∧
    ∀ r', BenchmarkResult.from_json (BenchmarkResult.to_json r) = some r' →
      r'.target_id = r.target_id ∧ r'.timestamp = r.timestamp ∧
      r'.metrics = r.metrics := by
  have h1 : lookupField
      [ ("target_id", Json.str r.target_id)
      , ("metrics", r.metrics)
      , ("timestamp", Json.str (tsRender r.timestamp)) ] "target_id"
      = some (Json.str r.target_id) := rfl
  have h2 : lookupField
      [ ("target_id", Json.str r.target_id)
      , ("metrics", r.metrics)
      , ("timestamp", Json.str (tsRender r.timestamp)) ] "metrics"
      = some r.metrics := rfl
  have h3 : lookupField
      [ ("target_id", Json.str r.target_id)
      , ("metrics", r.metrics)
      , ("timestamp", Json.str (tsRender r.timestamp)) ] "timestamp"
      = some (Json.str (tsRender r.timestamp)) := rfl
  have hmain : BenchmarkResult.from_json (BenchmarkResult.to_json r) = some r := by
    simp only [BenchmarkResult.to_json, BenchmarkResult.from_json, h1, h2, h3,
      tsParse_tsRender]
  refine ⟨hmain, ?_⟩
  intro r' hr'
  rw [hmain] at hr'
  cases hr'
  exact ⟨rfl, rfl, rfl⟩

/-- Witness for C3 at a concrete record. -/
theorem C3_roundtrip_witness :
    BenchmarkResult.from_json
      (BenchmarkResult.to_json ⟨"encryption-1kb", Json.null, 42⟩)
      = some ⟨"encryption-1kb", Json.null, 42⟩ :=
  (C3_roundtrip ⟨"encryption-1kb", Json.null, 42⟩).1

theorem sorted_getD_mono {l : List ℚ} (hs : List.Sorted (fun a b : ℚ => a ≤ b) l)
    {i j : Nat} (hij : i ≤ j) (hj : j < l.length) :
    l.getD i 0 ≤ l.getD j 0 := by
  have hi : i < l.length := Nat.lt_of_le_of_lt hij hj
  rw [List.getD_eq_get l 0 hi, List.getD_eq_get l 0 hj]
  exact List.Sorted.rel_get_of_le hs (Fin.mk_le_mk.mpr hij)

theorem p50Idx_le_sub_one {n : Nat} (hn : 1 ≤ n) : p50Idx n ≤ n - 1 := by
  unfold p50Idx; omega

theorem p95Idx_le_sub_one (n : Nat) : p95Idx n ≤ n - 1 := min_le_right _ _

theorem p99Idx_le_sub_one (n : Nat) : p99Idx n ≤ n - 1 := min_le_right _ _

theorem p50Idx_le_p95Idx {n : Nat} (hn : 1 ≤ n) : p50Idx n ≤ p95Idx n := by
  unfold p50Idx p95Idx p95IdxRaw
  refine le_min ?_ ?_ <;> omega

theorem p95Idx_le_p99Idx (n : Nat) : p95Idx n ≤ p99Idx n := by
  unfold p95Idx p99Idx p95IdxRaw p99IdxRaw
  exact min_le_min (Nat.div_le_div_right (Nat.mul_le_mul_left n (by norm_num)))
    (le_refl _)

/-- C1: for every trial count `N ≥ 1` the percentile index policy
(`p50_idx = N/2`, `p95_idx = ⌊N·0.95⌋` and `p99_idx = ⌊N·0.99⌋` clamped to
`N-1`) keeps all three indices in `[0, N-1]`; on the ascending-sorted trial
sequence the selected values satisfy `p50 ≤ p95 ≤ p99`; for `N = 1` all three
percentiles are the single sample (no out-of-range access); and for `N = 10`
both `p95` and `p99` resolve to index `9`. -/
theorem C1_percentile_index_policy (n : Nat) (hn : 1 ≤ n) (times : List ℚ)
    (hlen : times.length = n) :
    p50Idx n ≤ n - 1 ∧ p95Idx n ≤ n - 1 ∧ p99Idx n ≤ n - 1 ∧
    (computePercentiles n times).p50 ≤ (computePercentiles n times).p95 ∧
    (computePercentiles n times).p95 ≤ (computePercentiles n times).p99 ∧
    (∀ t : ℚ, times = [t] →
      (computePercentiles n times).p50 = t ∧
      (computePercentiles n times).p95 = t ∧
      (computePercentiles n times).p99 = t) ∧
    (n = 10 → p95Idx n = 9 ∧ p99Idx n = 9) := by
  have hsort : List.Sorted (fun a b : ℚ => a ≤ b)
      (List.insertionSort (fun a b : ℚ => a ≤ b) times) :=
    List.sorted_insertionSort _ times
  have hslen : (List.insertionSort (fun a b : ℚ => a ≤ b) times).length = n :=
    (List.length_insertionSort _ times).trans hlen
  have h95lt : p95Idx n < (List.insertionSort (fun a b : ℚ => a ≤ b) times).length := by
    rw [hslen]; exact Nat.lt_of_le_of_lt (p95Idx_le_sub_one n) (by omega)
  have h99lt : p99Idx n < (List.insertionSort (fun a b : ℚ => a ≤ b) times).length := by
    rw [hslen]; exact Nat.lt_of_le_of_lt (p99Idx_le_sub_one n) (by omega)
  refine ⟨p50Idx_le_sub_one hn, p95Idx_le_sub_one n, p99Idx_le_sub_one n, ?_, ?_, ?_, ?_⟩
  · exact sorted_getD_mono hsort (p50Idx_le_p95Idx hn) h95lt
  · exact sorted_getD_mono hsort (p95Idx_le_p99Idx n) h99lt
  · intro t ht
    subst ht
    obtain rfl : n = 1 := by simpa using hlen.symm
    exact ⟨rfl, rfl, rfl⟩
  · intro h10
    subst h10
    exact ⟨rfl, rfl⟩

/-- Witness for C1 at `N = 10` with a concrete trial sequence. -/
theorem C1_percentile_index_policy_witness :
    p50Idx 10 ≤ 10 - 1 ∧ p95Idx 10 ≤ 10 - 1 ∧ p99Idx 10 ≤ 10 - 1 ∧
    (computePercentiles 10 [3, 1, 4, 1, 5, 9, 2, 6, 5, 3]).p50 ≤
      (computePercentiles 10 [3, 1, 4, 1, 5, 9, 2, 6, 5, 3]).p95 ∧
    (computePercentiles 10 [3, 1, 4, 1, 5, 9, 2, 6, 5, 3]).p95 ≤
      (computePercentiles 10 [3, 1, 4, 1, 5, 9, 2, 6, 5, 3]).p99 ∧
    (∀ t : ℚ, ([3, 1, 4, 1, 5, 9, 2, 6, 5, 3] : List ℚ) = [t] →
      (computePercentiles 10 [3, 1, 4, 1, 5, 9, 2, 6, 5, 3]).p50 = t ∧
      (computePercentiles 10 [3, 1, 4, 1, 5, 9, 2, 6, 5, 3]).p95 = t ∧
      (computePercentiles 10 [3, 1, 4, 1, 5, 9, 2, 6, 5, 3]).p99 = t) ∧
    ((10 : Nat) = 10 → p95Idx 10 = 9 ∧ p99Idx 10 = 9) :=
  C1_percentile_index_policy 10 (by decide)
    [3, 1, 4, 1, 5, 9, 2, 6, 5, 3] (by decide)

/-- C4: the ids of `all_targets()` are pairwise distinct — the catalog
integrity invariant, independent of any run. -/
theorem C4_catalog_ids_nodup : (all_targets.map CatalogTarget.id).Nodup := by
  decide

/-- C5: `targets_by_prefix P` returns exactly the catalog entries whose id
starts with `P` (case-sensitive), as a sublist of the catalog (so catalog
order is preserved); in particular every returned id starts with `P`. -/
theorem C5_targets_by_prefix_spec (P : String) :
    (∀ t, t ∈ targets_by_prefix P ↔ (t ∈ all_targets ∧ strStartsWith t.id P = true)) ∧
    List.Sublist ( targets_by_prefix P) all_targets ∧
    (∀ t ∈ targets_by_prefix P, strStartsWith t.id P = true) := by
  refine ⟨fun t => ?_, ?_, fun t ht => ?_⟩
  · unfold targets_by_prefix
    exact List.mem_filter
  · exact List.filter_sublist all_targets
  · exact ((List.mem_filter).mp ht).2

/-- Witness for C5: the 1 KiB encryption target is returned for the
`encryption` prefix. -/
theorem C5_targets_by_prefix_spec_witness :
    EncryptionBenchmark.new 1024 "encryption-1kb" ∈ targets_by_prefix "encryption" :=
  ((C5_targets_by_prefix_spec "encryption").1
    (EncryptionBenchmark.new 1024 "encryption-1kb")).mpr ⟨by decide, by decide⟩

theorem runBatch_eq_filter_map (l : List TargetBehavior) :
    runBatch l = (l.filter (fun t => t.setupOk)).map (fun t => t.record) := by
  induction l with
  | nil => rfl
  | cons t rest ih =>
    by_cases h : t.setupOk = true <;>
      simp [runBatch, List.filter_cons, h, ih]

/-- C2: a batch run (run-all or run-by-prefix) returns exactly the records of
the targets whose setup succeeded, in catalog (respectively filtered-catalog)
order; a setup failure only skips that one target; the outcome never depends
on any teardown result; and for a 3-target batch whose middle setup fails,
exactly the first and third records are returned. -/
theorem C2_failure_isolation (ts : List TargetBehavior) (p : String)
    (t1 t2 t3 : TargetBehavior)
    (h1 : t1.setupOk = true) (h2 : t2.setupOk = false) (h3 : t3.setupOk = true) :
    run_all_benchmarks ts
      = (ts.filter (fun t => t.setupOk)).map (fun t => t.record) ∧
    run_benchmarks_by_prefix ts p
      = (((ts.filter (fun t => strStartsWith t.id p)).filter
          (fun t => t.setupOk)).map (fun t => t.record)) ∧
    (∀ f : TargetBehavior → Bool,
      run_all_benchmarks (ts.map (fun t => ⟨t.id, t.setupOk, t.record, f t⟩))
        = run_all_benchmarks ts) ∧
    run_all_benchmarks [t1, t2, t3] = [t1.record, t3.record] := by
  refine ⟨runBatch_eq_filter_map ts, runBatch_eq_filter_map _, fun f => ?_, ?_⟩
  · unfold run_all_benchmarks
    rw [runBatch_eq_filter_map, runBatch_eq_filter_map, List.filter_map,
      List.map_map]
    rfl
  · simp [run_all_benchmarks, runBatch, h1, h2, h3]

/-- Witness for C2: a concrete 3-target batch whose middle setup fails
yields exactly the first and third records. -/
theorem C2_failure_isolation_witness :
    run_all_benchmarks
      [⟨"alpha", true, ⟨"alpha", Json.null, 1⟩, true⟩,
       ⟨"beta", false, ⟨"beta", Json.null, 2⟩, true⟩,
       ⟨"gamma", true, ⟨"gamma", Json.null, 3⟩, false⟩]
      = [⟨"alpha", Json.null, 1⟩, ⟨"gamma", Json.null, 3⟩] :=
  (C2_failure_isolation [] ""
    ⟨"alpha", true, ⟨"alpha", Json.null, 1⟩, true⟩
    ⟨"beta", false, ⟨"beta", Json.null, 2⟩, true⟩
    ⟨"gamma", true, ⟨"gamma", Json.null, 3⟩, false⟩
    rfl rfl rfl).2.2.2

/-- C6 fails on the code as stated: the CLI checks `results.is_empty()`
*after* the run, so a prefix that matches a target whose setup fails also
produces the validation error — the error is not reported *exactly* when the
prefix-filtered catalog is empty, and the "matched but zero records" case is
not distinguished from it. Concretely: one target matches prefix `a` (the
filtered catalog is nonempty), its setup fails, and the CLI still reports the
validation error. -/
theorem C6_counterexample :
    ([⟨"alpha", false, ⟨"alpha", Json.null, 1⟩, true⟩]
        : List TargetBehavior).filter (fun t => strStartsWith t.id "a") ≠ [] ∧
    CliRunOutcome.isValidationError
      (runPrefixCommand [⟨"alpha", false, ⟨"alpha", Json.null, 1⟩, true⟩] "a")
      = true := by
  constructor
  · exact fun h => absurd (congrArg List.length h) (by decide)
  · rfl

/-- C6 (amended): the run-by-prefix CLI path reports a validation error
exactly when the run over the prefix-filtered catalog returns zero records —
that is, when the filtered catalog is empty **or** every matched target's
setup failed; an empty filtered catalog always triggers it, and any nonempty
record collection is returned as success. -/
theorem C6_amended (ts : List TargetBehavior) (p : String) :
    (CliRunOutcome.isValidationError (runPrefixCommand ts p) = true ↔
      run_benchmarks_by_prefix ts p = []) ∧
    (ts.filter (fun t => strStartsWith t.id p) = [] →
      CliRunOutcome.isValidationError (runPrefixCommand ts p) = true) ∧
    ( run_benchmarks_by_prefix ts p ≠ [] →
      runPrefixCommand ts p = CliRunOutcome.ok ( run_benchmarks_by_prefix ts p)) := by
  refine ⟨?_, ?_, ?_⟩
  · unfold runPrefixCommand
    by_cases h : run_benchmarks_by_prefix ts p = [] <;>
      simp [h, CliRunOutcome.isValidationError]
  · intro hfil
    unfold runPrefixCommand run_benchmarks_by_prefix
    rw [hfil]
    rfl
  · intro hne
    unfold runPrefixCommand
    simp [hne]

/-- Witness for C6 (amended): with an empty catalog the filtered set is
empty and the CLI reports the validation error. -/
theorem C6_amended_witness :
    CliRunOutcome.isValidationError (runPrefixCommand [] "encryption") = true :=
  (C6_amended [] "encryption").2.1 rfl

/-- C9: `run_benchmark_by_id` returns `None` both when no catalog entry has
the given id and when the entry exists but its setup fails, so `None` does
not imply the id is unknown; in both cases the CLI `--target` path reports
the same `not found` validation error. -/
theorem C9_none_ambiguity (ts : List TargetBehavior) (id : String) :
    (ts.find? (fun t => t.id == id) = none → run_benchmark_by_id ts id = none) ∧
    (∀ t, ts.find? (fun t => t.id == id) = some t → t.setupOk = false →
      run_benchmark_by_id ts id = none) ∧
    (run_benchmark_by_id ts id = none →
      runTargetCommand ts id
        = CliRunOutcome.validationError ("Benchmark target " ++ id ++ " not found")) := by
  refine ⟨?_, ?_, ?_⟩
  · intro h
    unfold run_benchmark_by_id
    rw [h]
  · intro t hfind hsetup
    unfold run_benchmark_by_id
    rw [hfind]
    simp [hsetup]
  · intro h
    unfold runTargetCommand
    rw [h]

/-- Witness for C9: two concrete one-target catalogs — an unknown id and a
known id with failing setup — both give `None`, and the CLI reports the same
validation error on both. -/
theorem C9_none_ambiguity_witness :
    run_benchmark_by_id
      [⟨"known", false, ⟨"known", Json.null, 1⟩, true⟩] "missing" = none ∧
    run_benchmark_by_id
      [⟨"known", false, ⟨"known", Json.null, 1⟩, true⟩] "known" = none ∧
    runTargetCommand
      [⟨"known", false, ⟨"known", Json.null, 1⟩, true⟩] "missing"
      = CliRunOutcome.validationError ("Benchmark target " ++ "missing" ++ " not found") ∧
    runTargetCommand
      [⟨"known", false, ⟨"known", Json.null, 1⟩, true⟩] "known"
      = CliRunOutcome.validationError ("Benchmark target " ++ "known" ++ " not found") := by
  have hmiss : run_benchmark_by_id
      [⟨"known", false, ⟨"known", Json.null, 1⟩, true⟩] "missing" = none :=
    (C9_none_ambiguity [⟨"known", false, ⟨"known", Json.null, 1⟩, true⟩]
      "missing").1 rfl
  have hknown : run_benchmark_by_id
      [⟨"known", false, ⟨"known", Json.null, 1⟩, true⟩] "known" = none :=
    (C9_none_ambiguity [⟨"known", false, ⟨"known", Json.null, 1⟩, true⟩]
      "known").2.1 ⟨"known", false, ⟨"known", Json.null, 1⟩, true⟩ rfl rfl
  refine ⟨hmiss, hknown, ?_, ?_⟩
  · exact (C9_none_ambiguity [⟨"known", false, ⟨"known", Json.null, 1⟩, true⟩]
      "missing").2.2 hmiss
  · exact (C9_none_ambiguity [⟨"known", false, ⟨"known", Json.null, 1⟩, true⟩]
      "known").2.2 hknown

theorem collectResults_eq (dir : List RawFile) :
    collectResults dir
      = dir.filterMap (fun f => if f.isJsonExt then parseFile f else none) := by
  induction dir with
  | nil => rfl
  | cons f rest ih =>
    by_cases h : f.isJsonExt = true
    · cases hp : parseFile f <;>
        simp [collectResults, List.filterMap_cons, h, hp, ih]
    · simp [collectResults, List.filterMap_cons, h, ih]

/-- C7: reading back stored results parses every `.json` file, silently skips
unparseable content (one corrupt record never drops the rest), and returns
the parsed records sorted ascending by timestamp; the outcome is
permutation-invariant in the write order, and exactly equal whenever the
parsed timestamps are pairwise distinct. -/
theorem C7_read_results_spec (dir : List RawFile) :
    List.Perm ( read_results dir)
      (dir.filterMap (fun f => if f.isJsonExt then parseFile f else none)) ∧
    List.Sorted byTimestamp ( read_results dir) ∧
    (∀ dir', List.Perm dir dir' →
      List.Perm ( read_results dir) ( read_results dir')) ∧
    (List.Pairwise (fun a b => a.timestamp ≠ b.timestamp) ( read_results dir) →
      ∀ dir', List.Perm dir dir' → read_results dir = read_results dir') := by
  have hperm : ∀ d : List RawFile,
      List.Perm ( read_results d) (collectResults d) :=
    fun d => List.perm_insertionSort byTimestamp (collectResults d)
  have hsorted : ∀ d : List RawFile, List.Sorted byTimestamp ( read_results d) :=
    fun d => List.sorted_insertionSort byTimestamp (collectResults d)
  have hinv : ∀ dir', List.Perm dir dir' →
      List.Perm ( read_results dir) ( read_results dir') := by
    intro dir' hd
    refine ((hperm dir).trans ?_).trans (hperm dir').symm
    rw [collectResults_eq, collectResults_eq]
    exact hd.filterMap _
  refine ⟨(hperm dir).trans (by rw [collectResults_eq]), hsorted dir, hinv, ?_⟩
  intro hne dir' hd
  have hp : List.Perm ( read_results dir) ( read_results dir') := hinv dir' hd
  have hne' : List.Pairwise (fun a b => a.timestamp ≠ b.timestamp)
      ( read_results dir') :=
    (List.Perm.pairwise_iff (fun h => Ne.symm h) hp).mp hne
  have hlt : List.Sorted (fun a b : BenchmarkResult =>
      a.timestamp < b.timestamp) ( read_results dir) :=
    (List.Pairwise.and (hsorted dir) hne).imp
      (fun hab => lt_of_le_of_ne hab.1 hab.2)
  have hlt' : List.Sorted (fun a b : BenchmarkResult =>
      a.timestamp < b.timestamp) ( read_results dir') :=
    (List.Pairwise.and (hsorted dir') hne').imp
      (fun hab => lt_of_le_of_ne hab.1 hab.2)
  haveI : IsAntisymm BenchmarkResult
      (fun a b => a.timestamp < b.timestamp) :=
    ⟨fun _ _ hab hba => absurd (lt_trans hab hba) (lt_irrefl _)⟩
  exact List.eq_of_perm_of_sorted hp hlt hlt'

/-- Witness for C7: a concrete 5-entry directory (three good records with
distinct timestamps, one corrupt `.json` file, one non-`.json` entry) read
back equals the read of the same directory with the first two files written
in the opposite order. -/
theorem C7_read_results_spec_witness :
    read_results
      [sampleFile "3" "c", sampleFile "1" "a", corruptFile,
       sampleFile "2" "b", strayFile]
      = read_results
      [sampleFile "1" "a", sampleFile "3" "c", corruptFile,
       sampleFile "2" "b", strayFile] :=
  (C7_read_results_spec
      [sampleFile "3" "c", sampleFile "1" "a", corruptFile,
       sampleFile "2" "b", strayFile]).2.2.2
    (by decide)
    [sampleFile "1" "a", sampleFile "3" "c", corruptFile,
     sampleFile "2" "b", strayFile]
    (List.Perm.swap (sampleFile "1" "a") (sampleFile "3" "c")
      [corruptFile, sampleFile "2" "b", strayFile])

theorem refresh_retry_policy_ok (s : InfraAdapterState) :
    ∃ s', refresh_retry_policy s = Except.ok s' ∧
      s'.initialized = s.initialized := by
  unfold refresh_retry_policy
  split <;> exact ⟨_, rfl, rfl⟩

theorem refresh_rate_limit_policy_ok (s : InfraAdapterState) :
    ∃ s', refresh_rate_limit_policy s = Except.ok s' ∧
      s'.initialized = s.initialized := by
  unfold refresh_rate_limit_policy
  split <;> exact ⟨_, rfl, rfl⟩

theorem refresh_cache_policy_ok (s : InfraAdapterState) :
    ∃ s', refresh_cache_policy s = Except.ok s' ∧
      s'.initialized = s.initialized := by
  unfold refresh_cache_policy
  split <;> exact ⟨_, rfl, rfl⟩

theorem refresh_all_ok (s : InfraAdapterState) :
    ∃ s', refresh_all s = Except.ok s' ∧ s'.initialized = s.initialized := by
  obtain ⟨s1, h1, hi1⟩ := refresh_retry_policy_ok s
  obtain ⟨s2, h2, hi2⟩ := refresh_rate_limit_policy_ok s1
  obtain ⟨s3, h3, hi3⟩ := refresh_cache_policy_ok s2
  exact ⟨s3, by simp [refresh_all, h1, h2, h3], hi3.trans (hi2.trans hi1)⟩

/-- C8: from any state, `initialize` succeeds with some state `s1` on which a
second `initialize` call is a no-op guarded by the idempotency flag: it
raises no error and returns `s1` unchanged — so every flag of the
capabilities after two calls is identical to after one call. -/
theorem C8_init_idempotent (s : InfraAdapterState) :
    ∃ s1, InfraAdapter.init s = Except.ok s1 ∧ s1.initialized = true ∧
      InfraAdapter.init s1 = Except.ok s1 := by
  by_cases h : s.initialized = true
  · exact ⟨s, by simp [InfraAdapter.init, h], h, by simp [InfraAdapter.init, h]⟩
  · obtain ⟨s', ha, _⟩ := refresh_all_ok (update_capabilities s)
    refine ⟨setInitialized s' true, ?_, rfl, ?_⟩
    · simp [InfraAdapter.init, h, ha]
    · simp [InfraAdapter.init, setInitialized]

/-- Witness for C8 at the default-configuration adapter state. -/
theorem C8_init_idempotent_witness :
    ∃ s1, InfraAdapter.init InfraAdapter.with_defaults = Except.ok s1 ∧
      s1.initialized = true ∧ InfraAdapter.init s1 = Except.ok s1 :=
  C8_init_idempotent InfraAdapter.with_defaults

/-- C10: every catalog target is constructed with an iteration count of at
least 10 (100 for encryption and storage, 1000 for hashing, 10 for
anonymization), so the `N ≥ 1` precondition of the statistics computation
holds on every catalog run; and `N ≥ 1` is necessary: for `N = 0` the trial
sequence is empty, so index `p50_idx = 0` is already out of range, and
`iterations - 1` on a zero `usize` wraps to `2^64 - 1`. -/
theorem C10_iterations_lower_bound :
    (∀ t ∈ all_targets, 10 ≤ t.iterations) ∧
    (∀ t ∈ all_targets,
      (t.kind = TargetKind.encryption → t.iterations = 100) ∧
      (t.kind = TargetKind.hashingBlake3 ∨ t.kind = TargetKind.hashingSha256 ∨
        t.kind = TargetKind.hashingChecksum → t.iterations = 1000) ∧
      (t.kind = TargetKind.anonFull ∨ t.kind = TargetKind.anonDetection →
        t.iterations = 10) ∧
      (t.kind = TargetKind.storageWrite ∨ t.kind = TargetKind.storageRead ∨
        t.kind = TargetKind.storageContentAddressing → t.iterations = 100)) ∧
    (∀ times : List ℚ, times.length = 0 →
      ¬ p50Idx 0 < (List.insertionSort (fun a b : ℚ => a ≤ b) times).length) ∧
    usizeWrapSub 0 1 = 2 ^ 64 - 1 := by
  refine ⟨by decide, by decide, ?_, by norm_num [usizeWrapSub]⟩
  intro times h
  rw [List.length_insertionSort, h]
  simp [p50Idx]

/-- Witness for C10 at two concrete catalog entries. -/
theorem C10_iterations_lower_bound_witness :
    10 ≤ (HashingBenchmark.blake3 (1024 * 1024) "hashing-blake3-1mb").iterations ∧
    (AnonymizationBenchmark.new 100 "anonymization-100-records").iterations = 10 := by
  refine ⟨C10_iterations_lower_bound.1 _ (by decide), ?_⟩
  exact (C10_iterations_lower_bound.2.1 _ (by decide)).2.2.1 (Or.inl rfl)

end DataVault
